import Mathlib

/-!
Verification development for the certificate-chain acquisition and
normalization engine of the cert-check repository.

The JavaScript sources src/server/src/utils/certParser.js and
src/server/src/utils/tlsClient.js are shallowly embedded below.  Pure
functions become Lean functions; the network, subprocess and TLS-session
effects are passed in explicitly (connection-attempt outcomes, session
data, subprocess outputs, a per-certificate toolkit oracle).  JavaScript
regular-expression extraction is embedded by hand-rolled scanners over
lists of characters that implement, pattern by pattern, the first-match
semantics of the concrete patterns used in the source.
-/

/-! ## JavaScript value helpers

JavaScript distinguishes absent (undefined) from present values, and
treats the empty string and 0 as falsy.  Absent values are modelled by
Option; the helpers below reproduce truthiness and the or-else idiom. -/

/-- Truthiness of an optional JavaScript string: undefined and the empty
string are falsy. -/
def jsTruthyS (x : Option String) : Bool :=
  match x with
  | some s => s != ""
  | none => false

/-- JavaScript or-else on strings: x or d, where undefined and the empty
string fall through to the default. -/
def jsOrS (x : Option String) (d : String) : String :=
  match x with
  | some s => if s = "" then d else s
  | none => d

/-- JavaScript or-else on numbers: x or d, where undefined and 0 fall
through to the default. -/
def jsOrNat (x : Option Nat) (d : Nat) : Nat :=
  match x with
  | some n => if n = 0 then d else n
  | none => d

/-! ## Character-list scanners

These model the JavaScript string methods and the concrete regular
expressions used by the source, working on the character list of a
string.  Lowercasing is ASCII (the patterns compared against are all
ASCII). -/

/-- Model of the JavaScript toLowerCase as used here: ASCII lowercasing
of every character. -/
def lowerStr (s : String) : String :=
  String.mk (s.data.map Char.toLower)

/-- Model of the JavaScript toUpperCase: ASCII uppercasing. -/
def upperStr (s : String) : String :=
  String.mk (s.data.map Char.toUpper)

/-- Case-sensitive test that pat occurs at the head of hay. -/
def charsLead : List Char → List Char → Bool
  | [], _ => true
  | _ :: _, [] => false
  | p :: ps, h :: hs => (p == h) && charsLead ps hs

/-- Case-insensitive (ASCII) test that pat occurs at the head of hay. -/
def charsLeadCI : List Char → List Char → Bool
  | [], _ => true
  | _ :: _, [] => false
  | p :: ps, h :: hs => (p.toLower == h.toLower) && charsLeadCI ps hs

/-- Case-sensitive substring search: does pat occur anywhere in hay.
Models the JavaScript String.includes method. -/
def charsContain (pat : List Char) : List Char → Bool
  | [] => charsLead pat []
  | c :: t => charsLead pat (c :: t) || charsContain pat t

/-- String.includes of the source, case sensitive. -/
def strContains (hay pat : String) : Bool :=
  charsContain pat.data hay.data

/-- Drop leading whitespace characters; models a greedy leading
whitespace-star in the source patterns. -/
def skipWs (l : List Char) : List Char :=
  l.dropWhile Char.isWhitespace

/-- Digit run to a natural number; models parseInt on a decimal-digit
capture group. -/
def digitsToNat (l : List Char) : Nat :=
  l.foldl (fun n c => n * 10 + (c.toNat - 48)) 0

/-- Generic first-match scanner: at each position of hay, if the literal
pat matches case-insensitively, run the post-processor on the remainder;
on post failure the scan advances one position, as a regular-expression
engine does. -/
def scanCapture {α : Type} (pat : List Char) (post : List Char → Option α) :
    List Char → Option α
  | [] => none
  | c :: t =>
    match (if charsLeadCI pat (c :: t) then post ((c :: t).drop pat.length) else none) with
    | some r => some r
    | none => scanCapture pat post t

/-- Post-processor for a whitespace-star followed by a one-or-more
non-whitespace capture group. -/
def postNonWs (rest : List Char) : Option String :=
  let r := skipWs rest
  let cap := r.takeWhile (fun c => !c.isWhitespace)
  if cap.isEmpty then none else some (String.mk cap)

/-- Post-processor for a whitespace-star followed by a one-or-more
any-character-but-newline capture group (the dot-plus idiom). -/
def postLine (rest : List Char) : Option String :=
  let r := skipWs rest
  let cap := r.takeWhile (fun c => c != '\n')
  if cap.isEmpty then none else some (String.mk cap)

/-- Index of the first occurrence of pat, case sensitive. -/
def findAt (pat : List Char) : List Char → Option Nat
  | [] => if pat.isEmpty then some 0 else none
  | c :: t => if charsLead pat (c :: t) then some 0 else (findAt pat t).map (· + 1)

/-- Splitting on a separator, by repeatedly cutting at the first
occurrence; the fuel bounds the number of cuts.  Models the JavaScript
split method with a non-empty string separator. -/
def splitSepAux (sep : List Char) : Nat → List Char → List (List Char)
  | 0, l => [l]
  | fuel + 1, l =>
    match findAt sep l with
    | none => [l]
    | some i => l.take i :: splitSepAux sep fuel (l.drop (i + sep.length))

/-- The JavaScript split method with a non-empty string separator. -/
def strSplit (s sep : String) : List String :=
  (splitSepAux sep.data (s.data.length + 1) s.data).map String.mk

/-! ## certParser.js -/

/-- SM2_CURVES of certParser.js line 6. -/
def SM2_CURVES : List String :=
  ["SM2", "sm2p256v1", "1.2.156.10197.1.301"]

/-- EV_OIDS of certParser.js lines 9 to 27. -/
def EV_OIDS : List String :=
  ["2.23.140.1.1",
   "1.3.6.1.4.1.34697.2.1",
   "1.3.6.1.4.1.6449.1.2.1.5.1",
   "2.16.840.1.114412.2.1",
   "2.16.840.1.114028.10.1.2",
   "1.3.6.1.4.1.14370.1.6",
   "1.3.6.1.4.1.4146.1.1",
   "2.16.840.1.114413.1.7.23.3",
   "2.16.840.1.114414.1.7.23.3",
   "2.16.756.1.89.1.2.1.1",
   "1.3.6.1.4.1.8024.0.2.100.1.2",
   "1.2.616.1.113527.2.5.1.1",
   "1.3.6.1.4.1.23223.1.1.1",
   "2.16.840.1.113733.1.7.23.6",
   "2.16.840.1.114404.1.1.2.4.1",
   "1.3.6.1.4.1.17326.10.14.2.1.2",
   "1.3.6.1.4.1.22234.2.5.2.3.1"]

/-- ECC_CURVES lookup of certParser.js lines 30 to 40, with the
JavaScript object-lookup-or-default idiom. -/
def eccCurveName (curve : String) : String :=
  if curve = "prime256v1" then "P-256 (secp256r1)"
  else if curve = "secp256r1" then "P-256 (secp256r1)"
  else if curve = "secp384r1" then "P-384 (secp384r1)"
  else if curve = "secp521r1" then "P-521 (secp521r1)"
  else if curve = "secp256k1" then "secp256k1 (Bitcoin)"
  else if curve = "X25519" then "X25519"
  else if curve = "Ed25519" then "Ed25519"
  else if curve = "X448" then "X448"
  else if curve = "Ed448" then "Ed448"
  else curve

/-- A distinguished-name object as Node places it on a live certificate:
every field may be absent. The source reads CN, O, OU, C, ST, S, L,
businessCategory and serialNumber. -/
structure JsName where
  CN : Option String := none
  O : Option String := none
  OU : Option String := none
  C : Option String := none
  ST : Option String := none
  S : Option String := none
  L : Option String := none
  businessCategory : Option String := none
  serialNumber : Option String := none
deriving DecidableEq

/-- The live-session certificate object produced by the Node TLS stack,
restricted to the fields the source reads.  The pubkey buffer is
modelled as its byte list; raw is the base64 text of the encoding;
infoAccess is modelled by its JSON-serialized text, which is exactly
the form the source inspects via JSON.stringify. -/
structure NodeCertRaw where
  subject : Option JsName := none
  issuer : Option JsName := none
  valid_from : Option String := none
  valid_to : Option String := none
  serialNumber : Option String := none
  fingerprint : Option String := none
  fingerprint256 : Option String := none
  subjectaltname : Option String := none
  bits : Option Nat := none
  asn1Curve : Option String := none
  modulus : Option String := none
  pubkey : Option (List Nat) := none
  infoAccess : Option String := none
  version : Option Nat := none
  raw : Option String := none
deriving DecidableEq

/-- Public-key record of the live path (certParser.js). -/
structure PubKeyNative where
  type : String
  typeName : String
  algorithm : String
  curve : Option String
  bits : Nat
  description : String
deriving DecidableEq

/-- Signature-algorithm record. -/
structure SigInfo where
  algorithm : String
  description : String
deriving DecidableEq

/-- Validation-level record of the live path (certParser.js). -/
structure ValidationInfo where
  level : String
  name : String
  nameCN : String
  description : String
  color : String
deriving DecidableEq

/-- SM2-membership test on a curve name, certParser.js line 50. -/
def isSM2Curve (curve : String) : Bool :=
  SM2_CURVES.any (fun sm2 => strContains (lowerStr curve) (lowerStr sm2))

/-- parsePublicKeyAlgorithm of certParser.js lines 45 to 111. -/
def parsePublicKeyAlgorithm (cert : NodeCertRaw) : PubKeyNative :=
  if jsTruthyS cert.asn1Curve then
    let curve := cert.asn1Curve.getD ""
    if isSM2Curve curve then
      { type := "SM2", typeName := "国密 SM2", algorithm := "SM2",
        curve := some curve, bits := 256, description := "中国商用密码算法" }
    else
      let curveName := eccCurveName curve
      let bits0 :=
        if strContains curve "384" then 384
        else if strContains curve "521" then 521
        else if strContains curve "448" then 448
        else 256
      { type := "ECC", typeName := "椭圆曲线", algorithm := "ECDSA",
        curve := some curveName, bits := jsOrNat cert.bits bits0,
        description := "椭圆曲线加密 (" ++ curveName ++ ")" }
  else if jsTruthyS cert.modulus then
    let bits := jsOrNat cert.bits ((cert.modulus.getD "").length * 4)
    { type := "RSA", typeName := "非对称加密", algorithm := "RSA",
      curve := none, bits := bits,
      description := "RSA " ++ toString bits ++ " 位" }
  else
    let unknown : PubKeyNative :=
      { type := "Unknown", typeName := "未知", algorithm := "Unknown",
        curve := none, bits := jsOrNat cert.bits 0, description := "未知算法" }
    match cert.pubkey with
    | some pk =>
      if pk.length = 32 || pk.length = 44 then
        { type := "ECC", typeName := "椭圆曲线", algorithm := "Ed25519",
          curve := some "Ed25519", bits := 256,
          description := "Edwards-curve (Ed25519)" }
      else unknown
    | none => unknown

/-- parseSignatureAlgorithm of certParser.js lines 116 to 126. -/
def parseSignatureAlgorithm (cert : NodeCertRaw) : SigInfo :=
  let pubKey := parsePublicKeyAlgorithm cert
  if pubKey.type = "SM2" then { algorithm := "SM3withSM2", description := "国密签名算法" }
  else if pubKey.type = "ECC" then { algorithm := "ECDSA with SHA-256", description := "椭圆曲线签名" }
  else if pubKey.type = "RSA" then { algorithm := "SHA-256 with RSA", description := "RSA 签名" }
  else { algorithm := "Unknown", description := "未知" }

/-- An empty distinguished-name object, the or-else default of
certParser.js line 132. -/
def emptyJsName : JsName := {}

/-- parseValidationLevel of certParser.js lines 131 to 174.  The
JSON.stringify of an absent infoAccess object serializes to the
two-character empty-object text. -/
def parseValidationLevel (cert : NodeCertRaw) : ValidationInfo :=
  let subject := cert.subject.getD emptyJsName
  let infoAccessStr := cert.infoAccess.getD "\x7b\x7d"
  let hasEVOID := EV_OIDS.any (fun oid => strContains infoAccessStr oid)
  let hasFullOrgInfo := jsTruthyS subject.O && jsTruthyS subject.L &&
    (jsTruthyS subject.ST || jsTruthyS subject.S) && jsTruthyS subject.C
  let hasEVFields := jsTruthyS subject.businessCategory || jsTruthyS subject.serialNumber
  if hasEVOID || (hasFullOrgInfo && hasEVFields) then
    { level := "EV", name := "Extended Validation", nameCN := "扩展验证",
      description := "最高级别验证，验证组织身份和法律存在性", color := "green" }
  else if jsTruthyS subject.O then
    { level := "OV", name := "Organization Validation", nameCN := "组织验证",
      description := "验证域名所有权和组织身份", color := "blue" }
  else
    { level := "DV", name := "Domain Validation", nameCN := "域名验证",
      description := "仅验证域名所有权", color := "orange" }

/-- A parsed distinguished name on the live path.  parseSubject of
certParser.js returns an empty object when the input is absent, whose
field reads are then undefined: absent fields are none. -/
structure ParsedName where
  commonName : Option String
  organization : Option String
  organizationalUnit : Option String
  country : Option String
  state : Option String
  locality : Option String
deriving DecidableEq

/-- parseSubject of certParser.js lines 179 to 189. -/
def parseSubject (subject : Option JsName) : ParsedName :=
  match subject with
  | none =>
    { commonName := none, organization := none, organizationalUnit := none,
      country := none, state := none, locality := none }
  | some s =>
    { commonName := some (s.CN.getD ""), organization := some (s.O.getD ""),
      organizationalUnit := some (s.OU.getD ""), country := some (s.C.getD ""),
      state := some (s.ST.getD ""), locality := some (s.L.getD "") }

/-- One entry of the live-path subjectAltNames list: the text before the
first colon and, when a colon is present, the text after it. -/
structure SANEntry where
  type : String
  value : Option String
deriving DecidableEq

/-- parseAltNames of certParser.js lines 194 to 200: split the session
string on comma-space, then split each name at its first colon into a
type and a value.  Every name type is kept. -/
def parseAltNames (subjectaltname : Option String) : List SANEntry :=
  match subjectaltname with
  | none => []
  | some s =>
    if s = "" then []
    else
      (strSplit s ", ").map (fun name =>
        let parts := strSplit name ":"
        { type := parts.headD "", value := parts[1]? })

/-- One normalized certificate record of the live path.  The type and
typeName fields are attached later by the chain walker, hence optional
here.  The validity timestamps keep the session text (the Date
normalization of formatDate is an environment effect outside the
embedding and no claim depends on it). -/
structure ParsedCert where
  subject : ParsedName
  issuer : ParsedName
  validFrom : Option String
  validTo : Option String
  serialNumber : String
  fingerprint : String
  fingerprint256 : String
  subjectAltNames : List SANEntry
  bits : Nat
  publicKey : PubKeyNative
  signatureAlgorithm : SigInfo
  validationLevel : ValidationInfo
  version : Nat
  raw : String
  type : Option String
  typeName : Option String
deriving DecidableEq

/-- parseCertificate of certParser.js lines 213 to 236. -/
def parseCertificate (cert : NodeCertRaw) : ParsedCert :=
  let publicKeyInfo := parsePublicKeyAlgorithm cert
  let signatureInfo := parseSignatureAlgorithm cert
  let validationLevel := parseValidationLevel cert
  { subject := parseSubject cert.subject,
    issuer := parseSubject cert.issuer,
    validFrom := cert.valid_from,
    validTo := cert.valid_to,
    serialNumber := cert.serialNumber.getD "",
    fingerprint := cert.fingerprint.getD "",
    fingerprint256 := cert.fingerprint256.getD "",
    subjectAltNames := parseAltNames cert.subjectaltname,
    bits := jsOrNat cert.bits publicKeyInfo.bits,
    publicKey := publicKeyInfo,
    signatureAlgorithm := signatureInfo,
    validationLevel := validationLevel,
    version := jsOrNat cert.version 0,
    raw := cert.raw.getD "",
    type := none,
    typeName := none }

/-! ## tlsClient.js, native path -/

/-- One TLS compatibility profile of tlsClient.js lines 9 to 13. -/
structure TLSConfig where
  minVersion : String
  maxVersion : String
  ciphers : Option String
deriving DecidableEq

/-- TLS_CONFIGS of tlsClient.js lines 9 to 13. -/
def TLS_CONFIGS : List TLSConfig :=
  [{ minVersion := "TLSv1.2", maxVersion := "TLSv1.3", ciphers := none },
   { minVersion := "TLSv1", maxVersion := "TLSv1.3", ciphers := none },
   { minVersion := "TLSv1.2", maxVersion := "TLSv1.3", ciphers := some "ALL" }]

/-- Outcome of one handshake attempt under one profile: the callback
fires, the error event fires, or the timeout event fires. -/
inductive ConnOutcome where
  | success
  | failure
  | timeout
deriving DecidableEq

/-- The errors of the native acquisition path, with the message texts
thrown by tlsClient.js. -/
inductive NativeError where
  | connFailed
  | connTimeout
  | emptyCert
deriving DecidableEq

/-- The message carried by each native error, from tlsClient.js lines
24, 48 and 64. -/
def NativeError.message : NativeError → String
  | .connFailed => "无法建立 TLS 连接"
  | .connTimeout => "连接超时"
  | .emptyCert => "无法获取证书信息"

/-- tryConnect of tlsClient.js lines 21 to 51.  The environment maps a
profile index to the outcome of attempting that profile.  An error
event destroys the socket and recurses on the next profile; a timeout
event rejects at once with the timeout message; exhausting the profile
list rejects with the connection-failure message. -/
def tryConnect (attempt : Nat → ConnOutcome) (configIndex : Nat) :
    Except NativeError Unit :=
  if _hle : TLS_CONFIGS.length ≤ configIndex then .error .connFailed
  else
    match attempt configIndex with
    | .success => .ok ()
    | .failure => tryConnect attempt (configIndex + 1)
    | .timeout => .error .connTimeout
termination_by TLS_CONFIGS.length - configIndex
decreasing_by
  simp only [TLS_CONFIGS, List.length] at *
  omega

/-- The issuer linkage a live session exposes: a heap of certificate
objects indexed by natural numbers, each with its raw fields and its
issuerCertificate link.  A link equal to the own index models the
reference-equal self link Node places on a root; none models an absent
link. -/
structure WalkEnv where
  cert : Nat → NodeCertRaw
  issuer : Nat → Option Nat

/-- One walker step result: the certificate list built so far and the
seen fingerprint set (kept as a list).  The fingerprints enter the set
exactly as read from the session object, absent values included. -/
abbrev WalkState := List ParsedCert × List (Option String)

/-- The position classification inside the walker loop, tlsClient.js
lines 75 to 84: the first collected certificate is leaf; one whose
issuer link is reflexive or absent is root; the rest are
intermediate. -/
def walkClassify (env : WalkEnv) (i : Nat) (acc : List ParsedCert)
    (parsed : ParsedCert) : ParsedCert :=
  if acc.isEmpty then
    { parsed with type := some "leaf", typeName := some "服务器证书" }
  else if env.issuer i = some i || env.issuer i = none then
    { parsed with type := some "root", typeName := some "根证书" }
  else
    { parsed with type := some "intermediate", typeName := some "中间证书" }

/-- The chain-walker loop of tlsClient.js lines 68 to 90.  Each
iteration requires an unvisited fingerprint, records it, classifies the
parsed certificate by position, appends it, follows the issuer link and
stops once more than ten certificates are collected.  The loop body
runs at most eleven times, so a fuel of twelve makes the embedding
exact. -/
def walkAux (env : WalkEnv) :
    Nat → Option Nat → List (Option String) → List ParsedCert → WalkState
  | 0, _, seen, acc => (acc, seen)
  | _ + 1, none, seen, acc => (acc, seen)
  | fuel + 1, some i, seen, acc =>
    let fp := (env.cert i).fingerprint256
    if seen.contains fp then (acc, seen)
    else
      let typed := walkClassify env i acc (parseCertificate (env.cert i))
      let acc2 := acc ++ [typed]
      if 10 < acc2.length then (acc2, fp :: seen)
      else walkAux env fuel (env.issuer i) (fp :: seen) acc2

/-- The full chain walk from the peer certificate. -/
def chainWalk (env : WalkEnv) (start : Nat) : WalkState :=
  walkAux env 12 (some start) [] []

/-- The result object built by getCertificateChain, tlsClient.js lines
106 to 115.  The negotiated cipher object is opaque to the engine and
kept abstract. -/
structure NativeChainResult where
  domain : String
  port : Nat
  certificates : List ParsedCert
  isValid : Bool
  isSelfSigned : Bool
  error : Option String
  protocol : Option String
  cipher : Option String
deriving DecidableEq

/-- The field names of the native result object literal, tlsClient.js
lines 106 to 115, in source order. -/
def nativeChainResultFields : List String :=
  ["domain", "port", "certificates", "isValid", "isSelfSigned", "error",
   "protocol", "cipher"]

/-- An established session: the peer certificate (none when
getPeerCertificate yields nothing or an empty object), its issuer
linkage, and the session metadata the source reads. -/
structure TLSSession where
  peer : Option Nat
  env : WalkEnv
  authorized : Bool
  authorizationError : Option String
  protocol : Option String
  cipher : Option String

/-- The self-signed test of tlsClient.js lines 93 and 94: exactly one
collected certificate whose subject and issuer common names agree. -/
def nativeIsSelfSigned (l : List ParsedCert) : Bool :=
  match l with
  | [c] => c.subject.commonName == c.issuer.commonName
  | _ => false

/-- The self-signed reclassification of tlsClient.js lines 96 to 99. -/
def nativeReclass (l : List ParsedCert) : List ParsedCert :=
  if nativeIsSelfSigned l then
    match l with
    | [c] => [{ c with type := some "self-signed", typeName := some "自签名证书" }]
    | l2 => l2
  else l

/-- getCertificateChain of tlsClient.js lines 56 to 119, given an
established session: reject when the peer certificate is missing or
empty; otherwise walk the chain, reclassify a single certificate with
matching subject and issuer common names as self-signed, and build the
result object. -/
def getCertificateChain (domain : String) (port : Nat) (s : TLSSession) :
    Except NativeError NativeChainResult :=
  match s.peer with
  | none => .error .emptyCert
  | some p =>
    .ok
      { domain := domain, port := port,
        certificates := nativeReclass (chainWalk s.env p).1,
        isValid := s.authorized,
        isSelfSigned := nativeIsSelfSigned (chainWalk s.env p).1,
        error := if jsTruthyS s.authorizationError then s.authorizationError else none,
        protocol := s.protocol, cipher := s.cipher }

/-- The native acquisition pipeline: the connection strategist followed,
on success, by the chain walk over the established session. -/
def nativeAcquire (domain : String) (port : Nat)
    (attempt : Nat → ConnOutcome) (s : TLSSession) :
    Except NativeError NativeChainResult :=
  match tryConnect attempt 0 with
  | .error e => .error e
  | .ok _ => getCertificateChain domain port s

/-! ## tlsClient.js, external-toolkit text path -/

/-- Trim of leading and trailing whitespace; models the JavaScript trim
method. -/
def trimStr (s : String) : String :=
  String.mk (((s.data.dropWhile Char.isWhitespace).reverse.dropWhile Char.isWhitespace).reverse)

/-- formatCertDate of tlsClient.js lines 332 to 341.  The Date
round-trip is an environment effect; every branch of the source either
returns the trimmed input or a reformatting of it, and no claim depends
on the reformatting, so the embedding keeps the trimmed matched text. -/
def formatCertDate (s : String) : String :=
  trimStr s

/-- The distinguished-name record built by parseDNFromText. -/
structure DNRec where
  commonName : String
  organization : String
  country : String
deriving DecidableEq

/-- First-match scanner for a key, optional whitespace, an equals sign,
optional whitespace and a one-or-more non-comma capture group, the
pattern shape used for every field of parseDNFromText. -/
def scanKeyEq (key : String) (dn : String) : Option String :=
  scanCapture key.data (fun rest =>
    let r := skipWs rest
    match r with
    | '=' :: r2 =>
      let cap := (skipWs r2).takeWhile (fun c => c != ',')
      if cap.isEmpty then none else some (String.mk cap)
    | _ => none) dn.data

/-- parseDNFromText of tlsClient.js lines 346 to 362: extract CN, O, C
and OU by key-equals matching; the common name falls back from CN to O
to OU. -/
def parseDNFromText (dn : String) : DNRec :=
  if dn = "" then { commonName := "", organization := "", country := "" }
  else
    let cn := scanKeyEq "CN" dn
    let o := scanKeyEq "O" dn
    let c := scanKeyEq "C" dn
    let ou := scanKeyEq "OU" dn
    { commonName :=
        jsOrS (cn.map trimStr) (jsOrS (o.map trimStr) (jsOrS (ou.map trimStr) "")),
      organization := jsOrS (o.map trimStr) "",
      country := jsOrS (c.map trimStr) "" }

/-- Post-processor for optional whitespace, a colon, optional whitespace
and a rest-of-line capture group. -/
def postColonLine (rest : List Char) : Option String :=
  let r := skipWs rest
  match r with
  | ':' :: r2 => postLine r2
  | _ => none

/-- Post-processor for optional whitespace, a colon, optional whitespace
and a non-whitespace capture group. -/
def postColonNonWs (rest : List Char) : Option String :=
  let r := skipWs rest
  match r with
  | ':' :: r2 => postNonWs r2
  | _ => none

/-- Post-processor for at least one whitespace character followed by a
non-whitespace capture group. -/
def postWsNonWs (rest : List Char) : Option String :=
  match rest with
  | c :: t => if c.isWhitespace then postNonWs (c :: t) else none
  | [] => none

/-- A character of the hexadecimal-and-colon class used by the serial
and fingerprint patterns (case-insensitive). -/
def isHexColonChar (c : Char) : Bool :=
  (('a' ≤ c) && (c ≤ 'f')) || (('A' ≤ c) && (c ≤ 'F')) || c.isDigit || c == ':'

/-- Post-processor for optional whitespace (which also absorbs the
optional newline of the serial-number pattern) followed by a one-or-more
hexadecimal-and-colon capture group. -/
def postHexColon (rest : List Char) : Option String :=
  let r := skipWs rest
  let cap := r.takeWhile isHexColonChar
  if cap.isEmpty then none else some (String.mk cap)

/-- Post-processor for an immediate one-or-more hexadecimal-and-colon
capture group, as in the fingerprint pattern after the equals sign. -/
def postHexColonNoWs (rest : List Char) : Option String :=
  let cap := rest.takeWhile isHexColonChar
  if cap.isEmpty then none else some (String.mk cap)

/-- Post-processor for an optional whitespace run, an opening
parenthesis, a digit capture group, an optional whitespace run and the
bit literal, as in the public-key size pattern. -/
def postKeySize (rest : List Char) : Option Nat :=
  let r := skipWs rest
  match r with
  | '(' :: r2 =>
    let ds := r2.takeWhile Char.isDigit
    if ds.isEmpty then none
    else
      let r3 := skipWs (r2.drop ds.length)
      if charsLeadCI "bit".data r3 then some (digitsToNat ds) else none
  | _ => none

/-- Post-processor for the subject-alternative-name pattern: the rest of
the header line, a newline, optional whitespace, then a rest-of-line
capture group. -/
def postSAN (rest : List Char) : Option String :=
  let afterHeader := rest.dropWhile (fun c => c != '\n')
  match afterHeader with
  | '\n' :: r2 =>
    let r3 := skipWs r2
    let cap := r3.takeWhile (fun c => c != '\n')
    if cap.isEmpty then none else some (String.mk cap)
  | _ => none

/-- Remove a leading dns-colon tag, case-insensitively, as the replace
call of tlsClient.js line 258 does. -/
def stripDNS (s : String) : String :=
  if charsLeadCI "dns:".data s.data then String.mk (s.data.drop 4) else s

/-- The subject-alternative-name pipeline of tlsClient.js lines 254 to
259: split the captured line on commas, trim, keep the entries whose
lowercased text starts with the dns tag, strip the tag, trim, and drop
empties. -/
def pemSANPipeline (line : String) : List String :=
  ((((strSplit line ",").map trimStr).filter
      (fun s => charsLead "dns:".data (lowerStr s).data)).map
      (fun s => trimStr (stripDNS s))).filter (fun s => s != "")

/-- Public-key record of the toolkit text path (tlsClient.js lines 265
to 290); unlike the live path it carries no description field. -/
structure PubKeyPEM where
  type : String
  typeName : String
  algorithm : String
  curve : Option String
  bits : Nat
deriving DecidableEq

/-- Validation-level record of the toolkit text path (tlsClient.js
lines 302 to 304); unlike the live path it carries no name field. -/
structure ValidationPEM where
  level : String
  nameCN : String
  description : String
  color : String
deriving DecidableEq

/-- The national-cryptography test of tlsClient.js lines 239 to 242:
the public-key algorithm name, the curve name, or anywhere in the whole
decoded text. -/
def pemIsGM (pubKeyAlgo curve text : String) : Bool :=
  strContains (lowerStr pubKeyAlgo) "sm2" || strContains (lowerStr curve) "sm2" ||
  strContains (lowerStr text) "sm2p256v1" || strContains (lowerStr text) "sm2-with-sm3"

/-- The elliptic-curve test of tlsClient.js line 243. -/
def pemIsECC (isGM : Bool) (pubKeyAlgo : String) : Bool :=
  !isGM && (strContains pubKeyAlgo "EC" || strContains (lowerStr pubKeyAlgo) "ec")

/-- One normalized certificate record of the toolkit text path. -/
structure PEMCert where
  subject : DNRec
  issuer : DNRec
  validFrom : Option String
  validTo : Option String
  serialNumber : String
  fingerprint : String
  fingerprint256 : String
  subjectAltNames : List String
  bits : Nat
  publicKey : PubKeyPEM
  signatureAlgorithm : SigInfo
  validationLevel : ValidationPEM
  version : Nat
  rawPEM : String
  isGM : Bool
  type : Option String
  typeName : Option String
deriving DecidableEq

/-- The subject extraction of tlsClient.js lines 206 and 207. -/
def pemSubject (text : String) : DNRec :=
  match scanCapture "Subject:".data postLine text.data with
  | some dn => parseDNFromText dn
  | none => { commonName := "Unknown", organization := "", country := "" }

/-- The issuer extraction of tlsClient.js lines 210 and 211. -/
def pemIssuer (text : String) : DNRec :=
  match scanCapture "Issuer:".data postLine text.data with
  | some dn => parseDNFromText dn
  | none => { commonName := "Unknown", organization := "", country := "" }

/-- The validity-start extraction of tlsClient.js lines 214 and 216. -/
def pemValidFrom (text : String) : Option String :=
  (scanCapture "Not Before:".data postLine text.data).map formatCertDate

/-- The validity-end extraction of tlsClient.js lines 215 and 217. -/
def pemValidTo (text : String) : Option String :=
  (scanCapture "Not After".data postColonLine text.data).map formatCertDate

/-- The serial-number extraction of tlsClient.js lines 220 and 221. -/
def pemSerial (text : String) : String :=
  match scanCapture "Serial Number:".data postHexColon text.data with
  | some s => upperStr (String.mk (s.data.filter (fun c => c != ':')))
  | none => ""

/-- The fingerprint extraction of tlsClient.js lines 224 and 225. -/
def pemFingerprint256 (text : String) : String :=
  (scanCapture "sha256 Fingerprint=".data postHexColonNoWs text.data).getD ""

/-- The key-size extraction of tlsClient.js line 228. -/
def pemKeySize (text : String) : Option Nat :=
  scanCapture "Public-Key:".data postKeySize text.data

/-- The curve extraction of tlsClient.js lines 231 and 232. -/
def pemCurve (text : String) : String :=
  (scanCapture "ASN1 OID:".data postNonWs text.data).getD ""

/-- The public-key-algorithm extraction of tlsClient.js lines 235 and
236. -/
def pemPubKeyAlgo (text : String) : String :=
  (scanCapture "Public Key Algorithm:".data postNonWs text.data).getD ""

/-- The national-cryptography flag of tlsClient.js lines 239 to 242 on
the extracted fields of a text. -/
def pemGM (text : String) : Bool :=
  pemIsGM (pemPubKeyAlgo text) (pemCurve text) text

/-- The elliptic-curve flag of tlsClient.js line 243 on the extracted
fields of a text. -/
def pemECC (text : String) : Bool :=
  pemIsECC (pemGM text) (pemPubKeyAlgo text)

/-- The bit-length of tlsClient.js line 244: the matched key size, else
256 for national cryptography, else 2048. -/
def pemBits (text : String) : Nat :=
  match pemKeySize text with
  | some n => n
  | none => if pemGM text then 256 else 2048

/-- The signature-algorithm extraction of tlsClient.js lines 247 and
248. -/
def pemSigAlgo (text : String) : String :=
  (scanCapture "Signature Algorithm:".data postNonWs text.data).getD ""

/-- The subject-alternative-name extraction of tlsClient.js lines 251
to 260. -/
def pemSAN (text : String) : List String :=
  match scanCapture "X509v3 Subject Alternative Name:".data postSAN text.data with
  | some line => pemSANPipeline line
  | none => []

/-- The public-key record of tlsClient.js lines 264 to 290: national
cryptography wins, then elliptic curves, and RSA is the remaining
case. -/
def pemPublicKey (text : String) : PubKeyPEM :=
  if pemGM text then
    { type := "SM2", typeName := "国密 SM2", algorithm := "SM2",
      curve := some (if pemCurve text = "" then "sm2p256v1" else pemCurve text),
      bits := 256 }
  else if pemECC text then
    { type := "ECC", typeName := "椭圆曲线", algorithm := "ECDSA",
      curve := some (pemCurve text), bits := pemBits text }
  else
    { type := "RSA", typeName := "非对称加密", algorithm := "RSA",
      curve := none, bits := pemBits text }

/-- The signature-algorithm record of tlsClient.js lines 293 to 298. -/
def pemSigInfo (text : String) : SigInfo :=
  if strContains (lowerStr (pemSigAlgo text)) "sm2" ||
     strContains (lowerStr (pemSigAlgo text)) "sm3" then
    { algorithm := "SM3withSM2", description := "国密签名算法" }
  else { algorithm := pemSigAlgo text, description := pemSigAlgo text }

/-- The validation-level record of tlsClient.js lines 301 to 304: the
toolkit text path only distinguishes the organization-validated and
domain-validated levels. -/
def pemValidationLevel (text : String) : ValidationPEM :=
  if (pemSubject text).organization != "" then
    { level := "OV", nameCN := "组织验证",
      description := "验证域名所有权和组织身份", color := "blue" }
  else
    { level := "DV", nameCN := "域名验证",
      description := "仅验证域名所有权", color := "green" }

/-- The text-parsing body of parsePEMCertificate, tlsClient.js lines
203 to 322, applied to the combined stdout-and-stderr text of the
per-certificate toolkit call. -/
def parsePEMCertificateText (pem text : String) : PEMCert :=
  { subject := pemSubject text, issuer := pemIssuer text,
    validFrom := pemValidFrom text, validTo := pemValidTo text,
    serialNumber := pemSerial text, fingerprint := "",
    fingerprint256 := pemFingerprint256 text,
    subjectAltNames := pemSAN text, bits := pemBits text,
    publicKey := pemPublicKey text, signatureAlgorithm := pemSigInfo text,
    validationLevel := pemValidationLevel text, version := 3, rawPEM := pem,
    isGM := pemGM text, type := none, typeName := none }

/-- parsePEMCertificate of tlsClient.js lines 192 to 327.  The x509
oracle models the per-certificate toolkit subprocess: it yields the
combined output text, or none when the invocation rejects (timeout or
spawn failure), in which case the source catch clause returns null and
the certificate is dropped. -/
def parsePEMCertificate (x509 : String → Option String) (pem : String) :
    Option PEMCert :=
  (x509 pem).map (fun text => parsePEMCertificateText pem text)

/-- The begin marker of a PEM certificate block. -/
def BEGIN_CERT : String := "-----BEGIN CERTIFICATE-----"

/-- The end marker of a PEM certificate block. -/
def END_CERT : String := "-----END CERTIFICATE-----"

/-- The global non-greedy block extraction of tlsClient.js line 369:
repeatedly take the text from the next begin marker to the nearest
following end marker. -/
def extractPEMsAux : Nat → List Char → List String
  | 0, _ => []
  | fuel + 1, l =>
    match findAt BEGIN_CERT.data l with
    | none => []
    | some i =>
      let fromBegin := l.drop i
      match findAt END_CERT.data (fromBegin.drop BEGIN_CERT.data.length) with
      | none => []
      | some j =>
        let bodyLen := BEGIN_CERT.data.length + j + END_CERT.data.length
        String.mk (fromBegin.take bodyLen) :: extractPEMsAux fuel (fromBegin.drop bodyLen)

/-- All PEM certificate blocks of a toolkit output. -/
def extractPEMs (s : String) : List String :=
  extractPEMsAux s.data.length s.data

/-- The cipher object of the toolkit-path result. -/
structure CipherInfo where
  name : String
deriving DecidableEq

/-- The result object built by parseOpenSSLOutput, tlsClient.js lines
419 to 429. -/
structure OpenSSLChainResult where
  domain : String
  port : Nat
  certificates : List PEMCert
  isValid : Bool
  isSelfSigned : Bool
  isGMSSL : Bool
  error : Option String
  protocol : String
  cipher : CipherInfo
deriving DecidableEq

/-- The field names of the toolkit-path result object literal,
tlsClient.js lines 419 to 429, in source order. -/
def opensslChainResultFields : List String :=
  ["domain", "port", "certificates", "isValid", "isSelfSigned", "isGMSSL",
   "error", "protocol", "cipher"]

/-- The chain-position assignment of tlsClient.js lines 378 to 389:
index zero is leaf, the last index is root, everything else is
intermediate. -/
def setChainType (index n : Nat) (cert : PEMCert) : PEMCert :=
  if index = 0 then { cert with type := some "leaf", typeName := some "服务器证书" }
  else if index = n - 1 then { cert with type := some "root", typeName := some "根证书" }
  else { cert with type := some "intermediate", typeName := some "中间证书" }

/-- The per-block parse results of tlsClient.js line 373: one optional
record per extracted PEM block. -/
def osslParsedCerts (x509 : String → Option String) (stdout : String) :
    List (Option PEMCert) :=
  (extractPEMs stdout).map (parsePEMCertificate x509)

/-- The surviving records after the Boolean filter of tlsClient.js line
377. -/
def osslSurvivors (x509 : String → Option String) (stdout : String) :
    List PEMCert :=
  (osslParsedCerts x509 stdout).filterMap id

/-- The surviving records with their chain positions assigned,
tlsClient.js lines 376 to 390. -/
def osslTyped (x509 : String → Option String) (stdout : String) :
    List PEMCert :=
  (osslSurvivors x509 stdout).enum.map
    (fun p => setChainType p.1 (osslSurvivors x509 stdout).length p.2)

/-- The aggregate national-cryptography certificate flag of
tlsClient.js line 400. -/
def osslHasGMCert (x509 : String → Option String) (stdout : String) : Bool :=
  (osslTyped x509 stdout).any (fun c => c.isGM)

/-- The session-level national-cryptography flag of tlsClient.js lines
401 and 402. -/
def osslIsNTLS (x509 : String → Option String) (stdout stderr : String) : Bool :=
  strContains stderr "NTLS" || strContains stderr "GMTLS" ||
  strContains stderr "GMSSL" || osslHasGMCert x509 stdout

/-- The self-signed test of tlsClient.js lines 405 and 406 on a typed
chain: exactly one certificate whose subject and issuer common names
agree. -/
def pemIsSelfSignedList (l : List PEMCert) : Bool :=
  match l with
  | [c] => c.subject.commonName == c.issuer.commonName
  | _ => false

/-- The self-signed reclassification of tlsClient.js lines 408 to
411. -/
def pemReclass (l : List PEMCert) : List PEMCert :=
  if pemIsSelfSignedList l then
    match l with
    | [c] => [{ c with type := some "self-signed", typeName := some "自签名证书" }]
    | l2 => l2
  else l

/-- The self-signed test of tlsClient.js lines 405 and 406. -/
def osslIsSelfSigned (x509 : String → Option String) (stdout : String) : Bool :=
  pemIsSelfSignedList (osslTyped x509 stdout)

/-- The certificate list after the self-signed reclassification of
tlsClient.js lines 408 to 411. -/
def osslCertificates (x509 : String → Option String) (stdout : String) :
    List PEMCert :=
  pemReclass (osslTyped x509 stdout)

/-- parseOpenSSLOutput of tlsClient.js lines 367 to 430. -/
def parseOpenSSLOutput (x509 : String → Option String)
    (stdout stderr : String) (domain : String) (port : Nat) : OpenSSLChainResult :=
  let protocolMatch :=
    match scanCapture "Protocol".data postColonNonWs stderr.data with
    | some v => some v
    | none => scanCapture "Protocol".data postColonNonWs stdout.data
  let cipherMatch :=
    match scanCapture "Cipher".data postColonNonWs stderr.data with
    | some v => some v
    | none =>
      match scanCapture "Cipher is".data postWsNonWs stderr.data with
      | some v => some v
      | none => scanCapture "Cipher".data postColonNonWs stdout.data
  let hasGMCert := osslHasGMCert x509 stdout
  let isNTLS := osslIsNTLS x509 stdout stderr
  let cipherName0 := cipherMatch.getD ""
  let cipherName := if cipherName0 = "" && hasGMCert then "SM2-WITH-SM4-SM3" else cipherName0
  { domain := domain, port := port, certificates := osslCertificates x509 stdout,
    isValid := true, isSelfSigned := osslIsSelfSigned x509 stdout,
    isGMSSL := isNTLS || hasGMCert,
    error := none,
    protocol :=
      match protocolMatch with
      | some p => p
      | none => if isNTLS || hasGMCert then "GMTLS" else "TLS",
    cipher := { name := if cipherName = "" then "Unknown" else cipherName } }

/-- The resolved value of one execOpenSSL invocation of tlsClient.js
lines 124 to 156: exit code and the captured output streams. -/
structure ExecResult where
  code : Option Int
  stdout : String
  stderr : String
deriving DecidableEq

/-- getGMCertificateChain of tlsClient.js lines 161 to 187.  The first
toolkit invocation uses the national-cryptography transport and its
rejection is swallowed (none); if it produced no certificate marker the
generic invocation runs, whose rejection propagates; if the chosen
output still has no certificate marker the function fails. -/
def getGMCertificateChain (domain : String) (port : Nat)
    (ntls : Option ExecResult) (generic : Except String ExecResult)
    (x509 : String → Option String) : Except String OpenSSLChainResult :=
  let firstTry : Except String ExecResult :=
    match ntls with
    | some r => if strContains r.stdout "BEGIN CERTIFICATE" then .ok r else generic
    | none => generic
  match firstTry with
  | .error e => .error e
  | .ok r =>
    if strContains r.stdout "BEGIN CERTIFICATE" then
      .ok (parseOpenSSLOutput x509 r.stdout r.stderr domain port)
    else .error "无法获取证书信息"

/-- The toolkit-path result after the fallback orchestrator attaches
its provenance fields, tlsClient.js lines 444 and 445. -/
structure FallbackResult where
  base : OpenSSLChainResult
  fallback : Bool
  fallbackReason : String
deriving DecidableEq

/-- The two provenance fields the orchestrator adds to the toolkit-path
result object. -/
def fallbackResultExtraFields : List String :=
  ["fallback", "fallbackReason"]

/-- getCertificateChainWithFallback of tlsClient.js lines 435 to 452:
try the native path; on any native error run the toolkit path and tag
its result with fallback provenance carrying the native failure
message; if the toolkit path fails too, fail with the terminal
message. -/
def getCertificateChainWithFallback (domain : String) (port : Nat)
    (attempt : Nat → ConnOutcome) (s : TLSSession)
    (ntls : Option ExecResult) (generic : Except String ExecResult)
    (x509 : String → Option String) :
    Except String (NativeChainResult ⊕ FallbackResult) :=
  match nativeAcquire domain port attempt s with
  | .ok r => .ok (.inl r)
  | .error e =>
    match getGMCertificateChain domain port ntls generic x509 with
    | .ok r => .ok (.inr { base := r, fallback := true, fallbackReason := e.message })
    | .error _ => .error "无法获取证书信息，请检查域名是否正确"

/-! ## Helper lemmas about the chain walker -/

/-- Number of leaf-classified entries in a live-path chain. -/
def nativeLeafCount (l : List ParsedCert) : Nat :=
  (l.filter (fun c => c.type == some "leaf")).length

/-- Number of leaf-classified entries in a toolkit-path chain. -/
def pemLeafCount (l : List PEMCert) : Nat :=
  (l.filter (fun c => c.type == some "leaf")).length

theorem walkAux_fst_length_le (env : WalkEnv) :
    ∀ fuel cur seen acc, acc.length ≤ 10 →
      ((walkAux env fuel cur seen acc).1).length ≤ 11 := by
  intro fuel
  induction fuel with
  | zero =>
    intro cur seen acc h
    simpa [walkAux] using Nat.le_succ_of_le h
  | succ n ih =>
    intro cur seen acc h
    cases cur with
    | none => simpa [walkAux] using Nat.le_succ_of_le h
    | some i =>
      simp only [walkAux]
      split
      · simpa using Nat.le_succ_of_le h
      · split
        · simpa using Nat.succ_le_succ h
        · exact ih _ _ _ (by omega)

theorem walkAux_snd_nodup (env : WalkEnv) :
    ∀ fuel cur seen acc, seen.Nodup →
      ((walkAux env fuel cur seen acc).2).Nodup := by
  intro fuel
  induction fuel with
  | zero => intro cur seen acc h; simpa [walkAux] using h
  | succ n ih =>
    intro cur seen acc h
    cases cur with
    | none => simpa [walkAux] using h
    | some i =>
      simp only [walkAux]
      split
      · simpa using h
      · rename_i hmem
        have hnotmem : (env.cert i).fingerprint256 ∉ seen := by
          simpa using hmem
        split
        · simpa using List.Nodup.cons hnotmem h
        · exact ih _ _ _ (List.Nodup.cons hnotmem h)

theorem walkAux_fst_append (env : WalkEnv) :
    ∀ fuel cur seen acc, ∃ t, (walkAux env fuel cur seen acc).1 = acc ++ t := by
  intro fuel
  induction fuel with
  | zero => intro cur seen acc; exact ⟨[], by simp [walkAux]⟩
  | succ n ih =>
    intro cur seen acc
    cases cur with
    | none => exact ⟨[], by simp [walkAux]⟩
    | some i =>
      simp only [walkAux]
      split
      · exact ⟨[], by simp⟩
      · split
        · exact ⟨_, rfl⟩
        · obtain ⟨t, ht⟩ := ih (env.issuer i) ((env.cert i).fingerprint256 :: seen)
            (acc ++ [walkClassify env i acc (parseCertificate (env.cert i))])
          exact ⟨[walkClassify env i acc (parseCertificate (env.cert i))] ++ t,
            by rw [ht, List.append_assoc]⟩

theorem walkClassify_type_ne_leaf (env : WalkEnv) (i : Nat)
    (acc : List ParsedCert) (parsed : ParsedCert) (hne : acc ≠ []) :
    (walkClassify env i acc parsed).type ≠ some "leaf" := by
  have hemp : acc.isEmpty = false := by
    cases acc with
    | nil => exact absurd rfl hne
    | cons a l => rfl
  simp only [walkClassify, hemp, Bool.false_eq_true, if_false]
  split <;> simp

theorem walkAux_leafCount (env : WalkEnv) :
    ∀ fuel cur seen acc, acc ≠ [] →
      nativeLeafCount ((walkAux env fuel cur seen acc).1) = nativeLeafCount acc := by
  intro fuel
  induction fuel with
  | zero => intro cur seen acc _; simp [walkAux]
  | succ n ih =>
    intro cur seen acc hne
    cases cur with
    | none => simp [walkAux]
    | some i =>
      have hleaf := walkClassify_type_ne_leaf env i acc (parseCertificate (env.cert i)) hne
      simp only [walkAux]
      split
      · rfl
      · split
        · simp [nativeLeafCount, List.filter_append, List.filter_cons,
            show ((walkClassify env i acc (parseCertificate (env.cert i))).type ==
              some "leaf") = false from beq_eq_false_iff_ne.2 hleaf]
        · rw [ih _ _ _ (by simp)]
          simp [nativeLeafCount, List.filter_append, List.filter_cons,
            show ((walkClassify env i acc (parseCertificate (env.cert i))).type ==
              some "leaf") = false from beq_eq_false_iff_ne.2 hleaf]

theorem nativeReclass_length (l : List ParsedCert) :
    (nativeReclass l).length = l.length := by
  simp only [nativeReclass]
  split
  · split <;> simp_all
  · rfl

theorem chainWalk_step (env : WalkEnv) (start : Nat) :
    chainWalk env start =
      walkAux env 11 (env.issuer start) [(env.cert start).fingerprint256]
        [walkClassify env start [] (parseCertificate (env.cert start))] := by
  simp [chainWalk, walkAux]

theorem chainWalk_length_le (env : WalkEnv) (start : Nat) :
    ((chainWalk env start).1).length ≤ 11 :=
  walkAux_fst_length_le env 12 (some start) [] [] (by simp)

theorem chainWalk_nodup (env : WalkEnv) (start : Nat) :
    ((chainWalk env start).2).Nodup :=
  walkAux_snd_nodup env 12 (some start) [] [] List.nodup_nil

theorem chainWalk_leafCount (env : WalkEnv) (start : Nat) :
    nativeLeafCount ((chainWalk env start).1) = 1 := by
  rw [chainWalk_step, walkAux_leafCount env 11 _ _ _ (by simp)]
  simp [nativeLeafCount, walkClassify]

theorem chainWalk_ne_nil (env : WalkEnv) (start : Nat) :
    (chainWalk env start).1 ≠ [] := by
  rw [chainWalk_step]
  obtain ⟨t, ht⟩ := walkAux_fst_append env 11 (env.issuer start)
    [(env.cert start).fingerprint256]
    [walkClassify env start [] (parseCertificate (env.cert start))]
  rw [ht]
  simp

theorem chainWalk_single_leaf (env : WalkEnv) (start : Nat) (c : ParsedCert)
    (h : (chainWalk env start).1 = [c]) : c.type = some "leaf" := by
  have hc := chainWalk_leafCount env start
  rw [h] at hc
  cases hb : (c.type == some "leaf") with
  | true => exact eq_of_beq hb
  | false => simp [nativeLeafCount, List.filter_cons, hb] at hc

/-! ## Helper lemmas about the text-path chain assembly -/

theorem setChainType_isGM (i n : Nat) (c : PEMCert) :
    (setChainType i n c).isGM = c.isGM := by
  simp only [setChainType]
  split
  · rfl
  · split <;> rfl

theorem setChainType_subject (i n : Nat) (c : PEMCert) :
    (setChainType i n c).subject = c.subject := by
  simp only [setChainType]
  split
  · rfl
  · split <;> rfl

theorem setChainType_issuer (i n : Nat) (c : PEMCert) :
    (setChainType i n c).issuer = c.issuer := by
  simp only [setChainType]
  split
  · rfl
  · split <;> rfl

theorem setChainType_type_zero (n : Nat) (c : PEMCert) :
    (setChainType 0 n c).type = some "leaf" := by
  simp [setChainType]

theorem setChainType_type_last (i n : Nat) (c : PEMCert) (h0 : i ≠ 0)
    (hl : i = n - 1) : (setChainType i n c).type = some "root" := by
  subst hl
  simp [setChainType, h0]

theorem setChainType_type_mid (i n : Nat) (c : PEMCert) (h0 : i ≠ 0)
    (hl : i ≠ n - 1) : (setChainType i n c).type = some "intermediate" := by
  simp [setChainType, h0, hl]

theorem setChainType_type_ne_leaf (i n : Nat) (c : PEMCert) (h0 : i ≠ 0) :
    (setChainType i n c).type ≠ some "leaf" := by
  by_cases hl : i = n - 1
  · rw [setChainType_type_last i n c h0 hl]; simp
  · rw [setChainType_type_mid i n c h0 hl]; simp

theorem osslTyped_length (x509 : String → Option String) (stdout : String) :
    (osslTyped x509 stdout).length = (osslSurvivors x509 stdout).length := by
  simp [osslTyped]

theorem enumFrom_setChainType_any_isGM (n : Nat) :
    ∀ (l : List PEMCert) (i : Nat),
      ((l.enumFrom i).map (fun p => setChainType p.1 n p.2)).any (fun c => c.isGM) =
        l.any (fun c => c.isGM) := by
  intro l
  induction l with
  | nil => intro i; rfl
  | cons c t ih =>
    intro i
    simp [List.enumFrom, List.any_cons, setChainType_isGM, ih (i + 1)]

theorem osslTyped_any_isGM (x509 : String → Option String) (stdout : String) :
    (osslTyped x509 stdout).any (fun c => c.isGM) =
      (osslSurvivors x509 stdout).any (fun c => c.isGM) := by
  simp only [osslTyped, List.enum]
  exact enumFrom_setChainType_any_isGM _ _ 0

theorem enumFrom_setChainType_leafCount (n : Nat) :
    ∀ (l : List PEMCert) (i : Nat), i ≠ 0 →
      pemLeafCount ((l.enumFrom i).map (fun p => setChainType p.1 n p.2)) = 0 := by
  intro l
  induction l with
  | nil => intro i _; rfl
  | cons c t ih =>
    intro i hi
    have hne := setChainType_type_ne_leaf i n c hi
    simp [List.enumFrom, pemLeafCount, List.filter_cons,
      beq_eq_false_iff_ne.2 hne] at *
    exact ih (i + 1) (Nat.succ_ne_zero i)

theorem osslTyped_leafCount (x509 : String → Option String) (stdout : String)
    (hne : osslSurvivors x509 stdout ≠ []) :
    pemLeafCount (osslTyped x509 stdout) = 1 := by
  simp only [osslTyped, List.enum]
  cases hs : osslSurvivors x509 stdout with
  | nil => exact absurd hs hne
  | cons c t =>
    have h0 : (setChainType 0 (c :: t).length c).type = some "leaf" :=
      setChainType_type_zero _ _
    have hrest := enumFrom_setChainType_leafCount (c :: t).length t 1 one_ne_zero
    simp only [pemLeafCount] at hrest ⊢
    simp only [List.length_cons] at hrest
    rw [show List.enumFrom 0 (c :: t) = (0, c) :: List.enumFrom 1 t from rfl,
      List.map_cons, List.filter_cons]
    simp only [List.length_cons] at h0 ⊢
    simp [h0, hrest]

theorem osslTyped_getElem (x509 : String → Option String) (stdout : String)
    (k : Nat) :
    (osslTyped x509 stdout)[k]? =
      ((osslSurvivors x509 stdout)[k]?).map
        (fun c => setChainType k (osslSurvivors x509 stdout).length c) := by
  simp only [osslTyped, List.getElem?_map, List.getElem?_enum, Option.map_map]
  rfl

theorem pemReclass_length (l : List PEMCert) :
    (pemReclass l).length = l.length := by
  simp only [pemReclass]
  split
  · split <;> simp_all
  · rfl

theorem osslCertificates_length (x509 : String → Option String) (stdout : String) :
    (osslCertificates x509 stdout).length = (osslTyped x509 stdout).length :=
  pemReclass_length _

theorem pemReclass_any_isGM (l : List PEMCert) :
    (pemReclass l).any (fun c => c.isGM) = l.any (fun c => c.isGM) := by
  simp only [pemReclass]
  split
  · split
    · simp_all
    · rfl
  · rfl

theorem osslCertificates_any_isGM (x509 : String → Option String) (stdout : String) :
    (osslCertificates x509 stdout).any (fun c => c.isGM) =
      (osslTyped x509 stdout).any (fun c => c.isGM) :=
  pemReclass_any_isGM _

/-! ## Claim C1 -/

/-- A linear issuer chain with pairwise distinct fingerprints at every
index, longer than the cap. -/
def c1Env : WalkEnv :=
  { cert := fun i => { fingerprint256 := some (Nat.repr i) },
    issuer := fun i => some (i + 1) }

/-- A session exposing the linear chain of c1Env. -/
def c1Session : TLSSession :=
  { peer := some 0, env := c1Env, authorized := true,
    authorizationError := none, protocol := some "TLSv1.3",
    cipher := some "TLS_AES_256_GCM_SHA384" }

/-- An empty result record, used only as a get-or-default fallback when
projecting a result known to be successful. -/
def emptyNativeChainResult : NativeChainResult :=
  { domain := "", port := 0, certificates := [], isValid := false,
    isSelfSigned := false, error := none, protocol := none, cipher := none }

/-- C1 counterexample: on a linear chain of distinct fingerprints the
walker collects eleven certificates, because the loop breaks only after
the list length exceeds ten; the claimed bound of ten fails. -/
theorem C1_counterexample :
    (getCertificateChain "example.com" 443 c1Session).toOption.map
        (fun r => r.certificates.length) = some 11 ∧ ¬ (11 ≤ 10) := by
  constructor
  · decide
  · decide

/-- C1 amended: for every issuer linkage and start certificate the
Chain Walker terminates, never revisiting a fingerprint already seen
(the seen set it builds is duplicate-free), and the certificates list
of the resulting ChainResult has length at most eleven (not ten: the
source breaks only once the list length exceeds ten, so an eleventh
entry is collected). -/
theorem C1_walker_termination_and_bound :
    (∀ (env : WalkEnv) (start : Nat),
      ((chainWalk env start).1).length ≤ 11 ∧ ((chainWalk env start).2).Nodup) ∧
    (∀ (domain : String) (port : Nat) (s : TLSSession) (r : NativeChainResult),
      getCertificateChain domain port s = .ok r → r.certificates.length ≤ 11) := by
  constructor
  · intro env start
    exact ⟨chainWalk_length_le env start, chainWalk_nodup env start⟩
  · intro domain port s r h
    cases hp : s.peer with
    | none => simp [getCertificateChain, hp] at h
    | some p =>
      simp only [getCertificateChain, hp] at h
      cases h
      simp only
      rw [nativeReclass_length]
      exact chainWalk_length_le s.env p

/-- C1 witness: the bound instantiated on the concrete linear-chain
session. -/
theorem C1_walker_termination_and_bound_witness :
    ((getCertificateChain "example.com" 443 c1Session).toOption.getD
        emptyNativeChainResult).certificates.length ≤ 11 :=
  C1_walker_termination_and_bound.2 "example.com" 443 c1Session
    ((getCertificateChain "example.com" 443 c1Session).toOption.getD
      emptyNativeChainResult) (by rfl)

/-! ## Claim C2 -/

/-- C2 counterexample: a timeout on the first profile surfaces at once
as the terminal timeout error, even though the next profile would have
succeeded; the strategist does not advance past a timeout. -/
theorem C2_counterexample :
    tryConnect (fun i => if i = 0 then ConnOutcome.timeout else ConnOutcome.success) 0 =
      .error .connTimeout ∧
    (fun i => if i = 0 then ConnOutcome.timeout else ConnOutcome.success) 1 =
      ConnOutcome.success := by
  constructor
  · simp [tryConnect, TLS_CONFIGS]
  · rfl

/-- C2 amended: on a profile that is not past the end of the list, an
error event counts as a failure of that one profile and the strategist
advances to the next profile, while a timeout event on ANY profile, not
only the last, surfaces immediately as the terminal timeout error; a
success returns the session. -/
theorem C2_strategist_profile_advance :
    ∀ (attempt : Nat → ConnOutcome) (i : Nat), i < TLS_CONFIGS.length →
      ((attempt i = .failure → tryConnect attempt i = tryConnect attempt (i + 1)) ∧
       (attempt i = .timeout → tryConnect attempt i = .error .connTimeout) ∧
       (attempt i = .success → tryConnect attempt i = .ok ())) := by
  intro attempt i hi
  refine ⟨fun h => ?_, fun h => ?_, fun h => ?_⟩ <;>
  · rw [tryConnect.eq_def]
    simp [Nat.not_le.2 hi, h]

/-- C2 witness: the amended behavior at profile zero for an
all-failures environment and an all-timeouts environment. -/
theorem C2_strategist_profile_advance_witness :
    (0 : Nat) < TLS_CONFIGS.length ∧
    tryConnect (fun _ => ConnOutcome.failure) 0 =
      tryConnect (fun _ => ConnOutcome.failure) 1 ∧
    tryConnect (fun _ => ConnOutcome.timeout) 0 = .error .connTimeout := by
  refine ⟨by decide, ?_, ?_⟩
  · exact (C2_strategist_profile_advance (fun _ => .failure) 0 (by decide)).1 rfl
  · exact (C2_strategist_profile_advance (fun _ => .timeout) 0 (by decide)).2.1 rfl

/-! ## Claim C5 -/

/-- C5 counterexample: the toolkit-path result object carries an
isGMSSL field but the native-path result object does not, so not every
ChainResult contains the field and the two shapes differ beyond the
fallback provenance fields. -/
theorem C5_counterexample :
    opensslChainResultFields.contains "isGMSSL" = true ∧
    nativeChainResultFields.contains "isGMSSL" = false := by
  decide

/-- C5 amended: only the toolkit-path ChainResult carries an isGMSSL
field, and there it is true exactly when some certificate of the chain
is flagged national-cryptography or the toolkit error stream mentions
an NTLS, GMTLS or GMSSL marker; apart from that field and the fallback
provenance fields, the two result shapes agree. -/
theorem C5_isGMSSL_and_shape :
    (∀ (x509 : String → Option String) (stdout stderr domain : String) (port : Nat),
      (parseOpenSSLOutput x509 stdout stderr domain port).isGMSSL =
        ((parseOpenSSLOutput x509 stdout stderr domain port).certificates.any
            (fun c => c.isGM) ||
         strContains stderr "NTLS" || strContains stderr "GMTLS" ||
         strContains stderr "GMSSL")) ∧
    opensslChainResultFields.filter (fun f => f != "isGMSSL") =
      nativeChainResultFields ∧
    fallbackResultExtraFields = ["fallback", "fallbackReason"] := by
  refine ⟨?_, by decide, rfl⟩
  intro x509 stdout stderr domain port
  show (osslIsNTLS x509 stdout stderr || osslHasGMCert x509 stdout) = _
  rw [show (parseOpenSSLOutput x509 stdout stderr domain port).certificates =
    osslCertificates x509 stdout from rfl]
  rw [osslCertificates_any_isGM]
  simp only [osslIsNTLS, osslHasGMCert]
  cases (osslTyped x509 stdout).any (fun c => c.isGM) <;>
    simp [Bool.or_comm, Bool.or_assoc, Bool.or_left_comm]

/-! ## Claim C10 -/

/-- C10: on the toolkit text path the national-cryptography detection
scans the whole decoded certificate text, so an occurrence of the
sm2p256v1 or sm2-with-sm3 substring anywhere in the lowercased text
forces the public key to classify as SM2 with 256 bits and flags the
certificate; and any flagged certificate in a chain forces the isGMSSL
field of the whole result to true. -/
theorem C10_text_scan_gm :
    (∀ (pem text : String),
      strContains (lowerStr text) "sm2p256v1" = true ∨
        strContains (lowerStr text) "sm2-with-sm3" = true →
      (parsePEMCertificateText pem text).publicKey.type = "SM2" ∧
      (parsePEMCertificateText pem text).publicKey.bits = 256 ∧
      (parsePEMCertificateText pem text).isGM = true) ∧
    (∀ (x509 : String → Option String) (stdout stderr domain : String) (port : Nat),
      (parseOpenSSLOutput x509 stdout stderr domain port).certificates.any
          (fun c => c.isGM) = true →
      (parseOpenSSLOutput x509 stdout stderr domain port).isGMSSL = true) := by
  constructor
  · intro pem text h
    have hgm : pemGM text = true := by
      simp only [pemGM, pemIsGM]
      rcases h with h | h <;> simp [h]
    refine ⟨?_, ?_, hgm⟩
    · show (pemPublicKey text).type = "SM2"
      simp [pemPublicKey, hgm]
    · show (pemPublicKey text).bits = 256
      simp [pemPublicKey, hgm]
  · intro x509 stdout stderr domain port h
    rw [show (parseOpenSSLOutput x509 stdout stderr domain port).certificates =
      osslCertificates x509 stdout from rfl, osslCertificates_any_isGM] at h
    show (osslIsNTLS x509 stdout stderr || osslHasGMCert x509 stdout) = true
    simp [osslHasGMCert, osslIsNTLS, h]

/-- The decoded text of an RSA-keyed certificate whose only
national-cryptography trace is its signature-algorithm line. -/
def c10Text : String :=
  "Public Key Algorithm: rsaEncryption\nPublic-Key: (2048 bit)\nSignature Algorithm: SM2-with-SM3"

/-- C10 witness: the text-wide scan on a concrete RSA-keyed dump whose
signature-algorithm line mentions sm2-with-sm3, and the resulting chain
flag. -/
theorem C10_text_scan_gm_witness :
    (parsePEMCertificateText "p" c10Text).publicKey.type = "SM2" ∧
    (parsePEMCertificateText "p" c10Text).isGM = true ∧
    (parseOpenSSLOutput (fun _ => some c10Text)
      "-----BEGIN CERTIFICATE-----A-----END CERTIFICATE-----" "" "d" 443).isGMSSL = true :=
  ⟨(C10_text_scan_gm.1 "p" c10Text (Or.inr (by decide))).1,
   (C10_text_scan_gm.1 "p" c10Text (Or.inr (by decide))).2.2,
   C10_text_scan_gm.2 (fun _ => some c10Text)
     "-----BEGIN CERTIFICATE-----A-----END CERTIFICATE-----" "" "d" 443 (by decide)⟩

/-! ## Claim C4 -/

/-- C4 counterexample: on the toolkit text path a certificate text with
no curve identifier, no modulus-length indicator and no raw public key
classifies as RSA with the default 2048 bits, not as Unknown with 0
bits as the claim requires for that case. -/
theorem C4_counterexample :
    (parsePEMCertificateText "" "").publicKey.type = "RSA" ∧
    (parsePEMCertificateText "" "").publicKey.bits = 2048 ∧
    "RSA" ≠ "Unknown" := by
  refine ⟨by decide, by decide, by decide⟩

/-- C4 amended: on the live path the classifier yields SM2 with 256
bits for a truthy curve identifier of the SM2 family, RSA with bits
from the modulus length (or the explicit bit count) for a truthy
modulus, the Ed25519 algorithm for a 32- or 44-byte raw public key with
neither of the above, and otherwise Unknown with the explicit bit count
or zero; on the toolkit text path the SM2 rule is the same, but the
remaining case (neither national-cryptography nor elliptic indicators)
is RSA with the matched key size or a default of 2048 bits, never
Unknown. -/
theorem C4_key_classifier :
    (∀ cert : NodeCertRaw, jsTruthyS cert.asn1Curve = true →
      isSM2Curve (cert.asn1Curve.getD "") = true →
      (parsePublicKeyAlgorithm cert).type = "SM2" ∧
      (parsePublicKeyAlgorithm cert).bits = 256) ∧
    (∀ cert : NodeCertRaw, jsTruthyS cert.asn1Curve = false →
      jsTruthyS cert.modulus = true →
      (parsePublicKeyAlgorithm cert).type = "RSA" ∧
      (parsePublicKeyAlgorithm cert).bits =
        jsOrNat cert.bits ((cert.modulus.getD "").length * 4)) ∧
    (∀ (cert : NodeCertRaw) (pk : List Nat), jsTruthyS cert.asn1Curve = false →
      jsTruthyS cert.modulus = false → cert.pubkey = some pk →
      (pk.length = 32 ∨ pk.length = 44) →
      (parsePublicKeyAlgorithm cert).algorithm = "Ed25519" ∧
      (parsePublicKeyAlgorithm cert).bits = 256) ∧
    (∀ cert : NodeCertRaw, jsTruthyS cert.asn1Curve = false →
      jsTruthyS cert.modulus = false →
      (∀ pk, cert.pubkey = some pk → pk.length ≠ 32 ∧ pk.length ≠ 44) →
      (parsePublicKeyAlgorithm cert).type = "Unknown" ∧
      (parsePublicKeyAlgorithm cert).bits = jsOrNat cert.bits 0) ∧
    (∀ pem text : String, pemGM text = true →
      (parsePEMCertificateText pem text).publicKey.type = "SM2" ∧
      (parsePEMCertificateText pem text).publicKey.bits = 256) ∧
    (∀ pem text : String, pemGM text = false → pemECC text = false →
      (parsePEMCertificateText pem text).publicKey.type = "RSA" ∧
      (parsePEMCertificateText pem text).publicKey.bits = pemBits text) := by
  refine ⟨?_, ?_, ?_, ?_, ?_, ?_⟩
  · intro cert h1 h2
    constructor <;> simp [parsePublicKeyAlgorithm, h1, h2]
  · intro cert h1 h2
    constructor <;> simp [parsePublicKeyAlgorithm, h1, h2]
  · intro cert pk h1 h2 hpk hl
    constructor <;>
    · rcases hl with hl | hl <;> simp [parsePublicKeyAlgorithm, h1, h2, hpk, hl]
  · intro cert h1 h2 h3
    cases hp : cert.pubkey with
    | none => constructor <;> simp [parsePublicKeyAlgorithm, h1, h2, hp]
    | some pk =>
      obtain ⟨ha, hb⟩ := h3 pk hp
      constructor <;> simp [parsePublicKeyAlgorithm, h1, h2, hp, ha, hb]
  · intro pem text h
    constructor
    · show (pemPublicKey text).type = "SM2"
      simp [pemPublicKey, h]
    · show (pemPublicKey text).bits = 256
      simp [pemPublicKey, h]
  · intro pem text h1 h2
    constructor
    · show (pemPublicKey text).type = "RSA"
      simp [pemPublicKey, h1, h2]
    · show (pemPublicKey text).bits = pemBits text
      simp [pemPublicKey, h1, h2]

/-- A live certificate exposing only an SM2 curve identifier. -/
def c4CurveCert : NodeCertRaw := { asn1Curve := some "SM2" }

/-- A live certificate exposing a 512-hex-digit modulus, that is a
2048-bit key. -/
def c4ModulusCert : NodeCertRaw :=
  { modulus := some (String.mk (List.replicate 512 'a')) }

/-- A live certificate exposing only a 32-byte raw public key. -/
def c4EdCert : NodeCertRaw := { pubkey := some (List.replicate 32 0) }

/-- A live certificate exposing no key material at all. -/
def c4UnknownCert : NodeCertRaw := {}

set_option maxRecDepth 4000 in
/-- C4 witness: the classifier branches at concrete certificates,
including the 2048-bit modulus case the claim names. -/
theorem C4_key_classifier_witness :
    ((parsePublicKeyAlgorithm c4CurveCert).type = "SM2" ∧
      (parsePublicKeyAlgorithm c4CurveCert).bits = 256) ∧
    ((parsePublicKeyAlgorithm c4ModulusCert).type = "RSA" ∧
      (parsePublicKeyAlgorithm c4ModulusCert).bits =
        jsOrNat c4ModulusCert.bits ((c4ModulusCert.modulus.getD "").length * 4)) ∧
    jsOrNat c4ModulusCert.bits ((c4ModulusCert.modulus.getD "").length * 4) = 2048 ∧
    (parsePublicKeyAlgorithm c4EdCert).algorithm = "Ed25519" ∧
    (parsePublicKeyAlgorithm c4UnknownCert).type = "Unknown" ∧
    (parsePEMCertificateText "p" "ASN1 OID: sm2p256v1").publicKey.type = "SM2" :=
  ⟨C4_key_classifier.1 c4CurveCert (by decide) (by decide),
   C4_key_classifier.2.1 c4ModulusCert (by decide) (by decide),
   by decide,
   (C4_key_classifier.2.2.1 c4EdCert (List.replicate 32 0) (by decide) (by decide)
     rfl (Or.inl (by decide))).1,
   (C4_key_classifier.2.2.2.1 c4UnknownCert (by decide) (by decide)
     (fun pk h => Option.noConfusion h)).1,
   (C4_key_classifier.2.2.2.2.1 "p" "ASN1 OID: sm2p256v1" (by decide)).1⟩

/-! ## Claim C3 -/

/-- Refinement-side predicate following the words of the claim: a known
EV policy OID appears in the auxiliary extension data of the
certificate, or the subject carries organization, locality, state or
province, and country fields together with a business-category or a
subject serial-number field. -/
def specEVCondition (cert : NodeCertRaw) : Prop :=
  (∃ oid ∈ EV_OIDS, strContains (cert.infoAccess.getD "\x7b\x7d") oid = true) ∨
  (jsTruthyS (cert.subject.getD emptyJsName).O = true ∧
   jsTruthyS (cert.subject.getD emptyJsName).L = true ∧
   (jsTruthyS (cert.subject.getD emptyJsName).ST = true ∨
    jsTruthyS (cert.subject.getD emptyJsName).S = true) ∧
   jsTruthyS (cert.subject.getD emptyJsName).C = true ∧
   (jsTruthyS (cert.subject.getD emptyJsName).businessCategory = true ∨
    jsTruthyS (cert.subject.getD emptyJsName).serialNumber = true))

theorem specEVCondition_iff (cert : NodeCertRaw) :
    specEVCondition cert ↔
      (EV_OIDS.any (fun oid => strContains (cert.infoAccess.getD "\x7b\x7d") oid) ||
       ((jsTruthyS (cert.subject.getD emptyJsName).O &&
         jsTruthyS (cert.subject.getD emptyJsName).L &&
         (jsTruthyS (cert.subject.getD emptyJsName).ST ||
          jsTruthyS (cert.subject.getD emptyJsName).S) &&
         jsTruthyS (cert.subject.getD emptyJsName).C) &&
        (jsTruthyS (cert.subject.getD emptyJsName).businessCategory ||
         jsTruthyS (cert.subject.getD emptyJsName).serialNumber))) = true := by
  constructor
  · rintro (h | ⟨hO, hL, hSTS, hC, hBS⟩)
    · have ha : (EV_OIDS.any fun oid =>
          strContains (cert.infoAccess.getD "\x7b\x7d") oid) = true :=
        List.any_eq_true.2 (by simpa using h)
      simp [ha]
    · rcases hSTS with h1 | h1 <;> rcases hBS with h2 | h2 <;>
        simp [hO, hL, hC, h1, h2]
  · intro h
    simp only [Bool.or_eq_true, Bool.and_eq_true, List.any_eq_true] at h
    rcases h with h | ⟨⟨⟨⟨hO, hL⟩, hSTS⟩, hC⟩, hBS⟩
    · exact Or.inl (by simpa using h)
    · exact Or.inr ⟨hO, hL, by simpa [Bool.or_eq_true] using hSTS, hC,
        by simpa [Bool.or_eq_true] using hBS⟩

/-- The decoded text of a certificate that carries a recognized EV
policy OID but no organization field. -/
def c3Text : String := "Subject: CN = example.com\nPolicy: 2.23.140.1.1"

/-- C3 counterexample: on the toolkit text path a certificate whose
text carries the CA-Browser-Forum EV OID still classifies as DV; the
text path never produces the EV level, contradicting the claim for
that acquisition path. -/
theorem C3_counterexample :
    strContains c3Text "2.23.140.1.1" = true ∧
    (parsePEMCertificateText "p" c3Text).validationLevel.level = "DV" ∧
    "DV" ≠ "EV" := by
  refine ⟨by decide, by decide, by decide⟩

/-- C3 amended: on the live path the level is EV exactly under the EV
OID or full-organization condition, else OV exactly when the subject
organization is truthy, else DV; on the toolkit text path the level is
never EV, and is OV exactly when the extracted subject has a non-empty
organization, else DV. -/
theorem C3_validation_level :
    (∀ cert : NodeCertRaw,
      ((parseValidationLevel cert).level = "EV" ↔ specEVCondition cert) ∧
      ((parseValidationLevel cert).level = "OV" ↔
        (¬ specEVCondition cert ∧ jsTruthyS (cert.subject.getD emptyJsName).O = true)) ∧
      ((parseValidationLevel cert).level = "DV" ↔
        (¬ specEVCondition cert ∧ jsTruthyS (cert.subject.getD emptyJsName).O = false))) ∧
    (∀ pem text : String,
      (parsePEMCertificateText pem text).validationLevel.level ≠ "EV" ∧
      ((parsePEMCertificateText pem text).validationLevel.level = "OV" ↔
        (parsePEMCertificateText pem text).subject.organization ≠ "") ∧
      ((parsePEMCertificateText pem text).validationLevel.level = "DV" ↔
        (parsePEMCertificateText pem text).subject.organization = "")) := by
  constructor
  · intro cert
    have hspec := specEVCondition_iff cert
    simp only [parseValidationLevel]
    split_ifs with h1 h2
    · refine ⟨⟨fun _ => hspec.2 h1, fun _ => rfl⟩, ?_, ?_⟩
      · exact iff_of_false (by decide) (fun h => h.1 (hspec.2 h1))
      · exact iff_of_false (by decide) (fun h => h.1 (hspec.2 h1))
    · have hnspec : ¬ specEVCondition cert := fun h => h1 (hspec.1 h)
      refine ⟨iff_of_false (by decide) (fun h => h1 (hspec.1 h)), ?_, ?_⟩
      · exact iff_of_true rfl ⟨hnspec, h2⟩
      · exact iff_of_false (by decide) (fun h => by rw [h2] at h; exact absurd h.2 (by decide))
    · have hnspec : ¬ specEVCondition cert := fun h => h1 (hspec.1 h)
      have ho : jsTruthyS (cert.subject.getD emptyJsName).O = false :=
        Bool.not_eq_true _ ▸ Bool.of_not_eq_true h2
      refine ⟨iff_of_false (by decide) (fun h => h1 (hspec.1 h)), ?_, ?_⟩
      · exact iff_of_false (by decide) (fun h => by rw [ho] at h; exact absurd h.2 (by decide))
      · exact iff_of_true rfl ⟨hnspec, ho⟩
  · intro pem text
    show (pemValidationLevel text).level ≠ "EV" ∧
      ((pemValidationLevel text).level = "OV" ↔ (pemSubject text).organization ≠ "") ∧
      ((pemValidationLevel text).level = "DV" ↔ (pemSubject text).organization = "")
    simp only [pemValidationLevel]
    by_cases h : (pemSubject text).organization = ""
    · simp [h]
    · simp [h]

/-! ## Claim C9 -/

/-- Refinement-side per-item treatment of one received
subject-alternative-name item, following the claim wording: keep the
item exactly when, after trimming, it carries the dns tag; the kept
value is the tag-stripped trimmed text, dropped when empty. -/
def dnsStrip (s : String) : Option String :=
  let t := trimStr s
  if charsLead "dns:".data (lowerStr t).data then
    let v := trimStr (stripDNS t)
    if v = "" then none else some v
  else none

theorem pemSANPipeline_eq_filterMap (line : String) :
    pemSANPipeline line = (strSplit line ",").filterMap dnsStrip := by
  unfold pemSANPipeline
  generalize strSplit line "," = l
  induction l with
  | nil => rfl
  | cons a t ih =>
    rw [List.filterMap_cons]
    by_cases hp : charsLead "dns:".data (lowerStr (trimStr a)).data = true
    · by_cases hq : trimStr (stripDNS (trimStr a)) = ""
      · simp [dnsStrip, hp, hq, ih]
      · simp [dnsStrip, hp, hq, ih]
    · simp [dnsStrip, hp, ih]

/-- C9 counterexample: the live-session path splits every received
name, without filtering to DNS-type entries and as type-value pairs
rather than plain strings; an address-type name survives into the
record. -/
theorem C9_counterexample :
    (parseCertificate { subjectaltname := some "IP Address:1.2.3.4" }).subjectAltNames =
      [{ type := "IP Address", value := some "1.2.3.4" }] ∧
    "IP Address" ≠ "DNS" := by
  refine ⟨by decide, by decide⟩

/-- C9 amended: on the toolkit text path subjectAltNames is exactly
the order-preserving, duplicate-preserving selection of the dns-tagged
items of the received list with the tag stripped; on the live-session
path every received name is kept, in order, as a type-value pair, one
entry per received item and with no DNS-type filtering. -/
theorem C9_subject_alt_names :
    (∀ line : String,
      pemSANPipeline line = (strSplit line ",").filterMap dnsStrip) ∧
    (∀ pem text : String,
      (parsePEMCertificateText pem text).subjectAltNames = pemSAN text) ∧
    pemSANPipeline "DNS:a.com, ip:1.2.3.4, DNS:a.com, DNS:b.com" =
      ["a.com", "a.com", "b.com"] ∧
    (∀ s : String, s ≠ "" →
      (parseAltNames (some s)).length = (strSplit s ", ").length) ∧
    (∀ cert : NodeCertRaw,
      (parseCertificate cert).subjectAltNames = parseAltNames cert.subjectaltname) := by
  refine ⟨pemSANPipeline_eq_filterMap, fun pem text => rfl, by decide, ?_, fun cert => rfl⟩
  intro s hs
  simp [parseAltNames, hs]

/-- C9 witness: one entry per received item on the live path at a
concrete two-item name string. -/
theorem C9_subject_alt_names_witness :
    (parseAltNames (some "DNS:a.com, IP Address:1.2.3.4")).length =
      (strSplit "DNS:a.com, IP Address:1.2.3.4" ", ").length ∧
    (strSplit "DNS:a.com, IP Address:1.2.3.4" ", ").length = 2 :=
  ⟨C9_subject_alt_names.2.2.2.1 "DNS:a.com, IP Address:1.2.3.4" (by decide), by decide⟩

/-! ## Claim C8 -/

/-- C8: when the native path fails with any of its errors, the pipeline
runs the toolkit path; a toolkit success is returned with the fallback
flag set and a fallback reason that carries the native failure message
and is never empty; a toolkit failure aborts the request with the
terminal message. -/
theorem C8_fallback :
    ∀ (domain : String) (port : Nat) (attempt : Nat → ConnOutcome) (s : TLSSession)
      (ntls : Option ExecResult) (generic : Except String ExecResult)
      (x509 : String → Option String) (e : NativeError),
      nativeAcquire domain port attempt s = .error e →
      ((∀ r, getGMCertificateChain domain port ntls generic x509 = .ok r →
        getCertificateChainWithFallback domain port attempt s ntls generic x509 =
          .ok (.inr { base := r, fallback := true, fallbackReason := e.message }) ∧
        e.message ≠ "") ∧
       (∀ e2, getGMCertificateChain domain port ntls generic x509 = .error e2 →
        getCertificateChainWithFallback domain port attempt s ntls generic x509 =
          .error "无法获取证书信息，请检查域名是否正确")) := by
  intro domain port attempt s ntls generic x509 e hn
  constructor
  · intro r hg
    constructor
    · simp [getCertificateChainWithFallback, hn, hg]
    · cases e <;> decide
  · intro e2 hg
    simp [getCertificateChainWithFallback, hn, hg]

/-- A session whose handshake never happened; unused by the native
pipeline because the strategist already fails. -/
def c8Session : TLSSession :=
  { peer := none, env := { cert := fun _ => {}, issuer := fun _ => none },
    authorized := false, authorizationError := none, protocol := none,
    cipher := none }

/-- A successful generic toolkit invocation carrying one PEM block. -/
def c8Exec : ExecResult :=
  { code := some 0,
    stdout := "-----BEGIN CERTIFICATE-----A-----END CERTIFICATE-----",
    stderr := "" }

/-- The per-certificate toolkit oracle of the C8 scenario. -/
def c8X509 : String → Option String :=
  fun _ => some "Subject: CN = a\nIssuer: CN = b"

/-- The toolkit-path result of the C8 scenario. -/
def c8Toolkit : OpenSSLChainResult :=
  parseOpenSSLOutput c8X509 c8Exec.stdout c8Exec.stderr "d" 443

/-- C8 witness: a total native failure followed by a toolkit success
returns the toolkit result tagged with the fallback flag and the
non-empty native failure message. -/
theorem C8_fallback_witness :
    getCertificateChainWithFallback "d" 443 (fun _ => ConnOutcome.failure) c8Session
        none (.ok c8Exec) c8X509 =
      .ok (.inr { base := c8Toolkit, fallback := true,
                  fallbackReason := "无法建立 TLS 连接" }) ∧
    "无法建立 TLS 连接" ≠ "" := by
  have hn : nativeAcquire "d" 443 (fun _ => ConnOutcome.failure) c8Session =
      .error .connFailed := by
    simp [nativeAcquire, tryConnect, TLS_CONFIGS]
  have h := (C8_fallback "d" 443 (fun _ => ConnOutcome.failure) c8Session none
    (.ok c8Exec) c8X509 .connFailed hn).1 c8Toolkit rfl
  exact ⟨h.1, h.2⟩

/-! ## Claim C7 -/

theorem nativeReclass_single (c : ParsedCert) :
    nativeReclass [c] =
      if c.subject.commonName == c.issuer.commonName then
        [{ c with type := some "self-signed", typeName := some "自签名证书" }]
      else [c] := by
  by_cases h : (c.subject.commonName == c.issuer.commonName) = true
  · simp [nativeReclass, nativeIsSelfSigned, h]
  · simp only [Bool.not_eq_true] at h
    simp [nativeReclass, nativeIsSelfSigned, h]

theorem pemReclass_single (c : PEMCert) :
    pemReclass [c] =
      if c.subject.commonName == c.issuer.commonName then
        [{ c with type := some "self-signed", typeName := some "自签名证书" }]
      else [c] := by
  by_cases h : (c.subject.commonName == c.issuer.commonName) = true
  · simp [pemReclass, pemIsSelfSignedList, h]
  · simp only [Bool.not_eq_true] at h
    simp [pemReclass, pemIsSelfSignedList, h]

/-- C7: on both paths, a single-certificate chain whose subject and
issuer common names are equal is classified self-signed with the
aggregate flag set, and a single-certificate chain with differing
common names stays classified leaf with the flag clear. -/
theorem C7_self_signed :
    (∀ (domain : String) (port : Nat) (s : TLSSession) (r : NativeChainResult)
       (c : ParsedCert),
      getCertificateChain domain port s = .ok r → r.certificates = [c] →
      ((c.subject.commonName = c.issuer.commonName →
        r.isSelfSigned = true ∧ c.type = some "self-signed") ∧
       (c.subject.commonName ≠ c.issuer.commonName →
        r.isSelfSigned = false ∧ c.type = some "leaf"))) ∧
    (∀ (x509 : String → Option String) (stdout stderr domain : String) (port : Nat)
       (c : PEMCert),
      (parseOpenSSLOutput x509 stdout stderr domain port).certificates = [c] →
      ((c.subject.commonName = c.issuer.commonName →
        (parseOpenSSLOutput x509 stdout stderr domain port).isSelfSigned = true ∧
        c.type = some "self-signed") ∧
       (c.subject.commonName ≠ c.issuer.commonName →
        (parseOpenSSLOutput x509 stdout stderr domain port).isSelfSigned = false ∧
        c.type = some "leaf"))) := by
  constructor
  · intro domain port s r c hok hcerts
    cases hp : s.peer with
    | none => simp [getCertificateChain, hp] at hok
    | some p =>
      simp only [getCertificateChain, hp] at hok
      cases hok
      simp only at hcerts ⊢
      cases hw : (chainWalk s.env p).1 with
      | nil => exact absurd hw (chainWalk_ne_nil s.env p)
      | cons c0 rest =>
        cases rest with
        | cons c1 rest2 =>
          simp [nativeReclass, nativeIsSelfSigned, hw] at hcerts
        | nil =>
          have hleaf := chainWalk_single_leaf s.env p c0 hw
          rw [hw] at hcerts
          by_cases hcn : (c0.subject.commonName == c0.issuer.commonName) = true
          · rw [nativeReclass_single, if_pos hcn] at hcerts
            simp only [List.cons.injEq, and_true] at hcerts
            subst hcerts
            refine ⟨fun _ => ⟨by simp [nativeIsSelfSigned, hcn], rfl⟩,
              fun h => absurd (eq_of_beq hcn) h⟩
          · simp only [Bool.not_eq_true] at hcn
            rw [nativeReclass_single, if_neg (by simp [hcn])] at hcerts
            simp only [List.cons.injEq, and_true] at hcerts
            subst hcerts
            refine ⟨fun h => absurd h (fun hh => by rw [hh] at hcn; simp at hcn),
              fun _ => ⟨by simp [nativeIsSelfSigned, hcn], hleaf⟩⟩
  · intro x509 stdout stderr domain port c hcerts
    rw [show (parseOpenSSLOutput x509 stdout stderr domain port).certificates =
      osslCertificates x509 stdout from rfl] at hcerts
    rw [show (parseOpenSSLOutput x509 stdout stderr domain port).isSelfSigned =
      osslIsSelfSigned x509 stdout from rfl, osslIsSelfSigned]
    rw [osslCertificates] at hcerts
    cases ht : osslTyped x509 stdout with
    | nil => simp [pemReclass, pemIsSelfSignedList, ht] at hcerts
    | cons c0 rest =>
      cases rest with
      | cons c1 rest2 =>
        simp [pemReclass, pemIsSelfSignedList, ht] at hcerts
      | nil =>
        have hleaf : c0.type = some "leaf" := by
          have h0 : (osslTyped x509 stdout)[0]? = some c0 := by rw [ht]; rfl
          rw [osslTyped_getElem] at h0
          cases hs0 : (osslSurvivors x509 stdout)[0]? with
          | none => rw [hs0] at h0; simp at h0
          | some s0 =>
            rw [hs0] at h0
            have h0x : setChainType 0 (osslSurvivors x509 stdout).length s0 = c0 := by
              simpa using h0
            rw [← h0x]
            exact setChainType_type_zero _ _
        rw [ht] at hcerts
        by_cases hcn : (c0.subject.commonName == c0.issuer.commonName) = true
        · rw [pemReclass_single, if_pos hcn] at hcerts
          simp only [List.cons.injEq, and_true] at hcerts
          subst hcerts
          refine ⟨fun _ => ⟨by simp [pemIsSelfSignedList, hcn], rfl⟩,
            fun h => absurd (eq_of_beq hcn) h⟩
        · simp only [Bool.not_eq_true] at hcn
          rw [pemReclass_single, if_neg (by simp [hcn])] at hcerts
          simp only [List.cons.injEq, and_true] at hcerts
          subst hcerts
          refine ⟨fun h => absurd h (fun hh => by rw [hh] at hcn; simp at hcn),
            fun _ => ⟨by simp [pemIsSelfSignedList, hcn], hleaf⟩⟩

/-- A session presenting a single self-issued certificate whose subject
and issuer common names agree, with a reflexive issuer link. -/
def c7Session : TLSSession :=
  { peer := some 0,
    env := { cert := fun _ =>
               { subject := some { CN := some "selfsigned.test" },
                 issuer := some { CN := some "selfsigned.test" },
                 fingerprint256 := some "f0" },
             issuer := fun _ => some 0 },
    authorized := false, authorizationError := some "self signed certificate",
    protocol := some "TLSv1.3", cipher := none }

/-- The result of probing the c7Session chain. -/
def c7Result : NativeChainResult :=
  (getCertificateChain "selfsigned.test" 443 c7Session).toOption.getD
    emptyNativeChainResult

/-- The single certificate of the c7Result chain. -/
def c7Cert : ParsedCert :=
  c7Result.certificates.headD (parseCertificate {})

/-- C7 witness: the self-signed branch at the concrete single-name
session. -/
theorem C7_self_signed_witness :
    c7Result.isSelfSigned = true ∧ c7Cert.type = some "self-signed" := by
  have h := (C7_self_signed.1 "selfsigned.test" 443 c7Session c7Result c7Cert
    rfl (by decide)).1 (by decide)
  exact ⟨h.1, h.2⟩

/-! ## Claim C6 -/

/-- C6 counterexample: when the only extracted block fails its
per-certificate toolkit call, every parse is dropped and the resulting
ChainResult has an empty, non-self-signed chain with no leaf entry at
all, so a non-self-signed chain does not always have exactly one
leaf. -/
theorem C6_counterexample :
    (parseOpenSSLOutput (fun _ => none)
        "-----BEGIN CERTIFICATE-----X-----END CERTIFICATE-----" "" "d" 443).certificates = [] ∧
    pemLeafCount (parseOpenSSLOutput (fun _ => none)
        "-----BEGIN CERTIFICATE-----X-----END CERTIFICATE-----" "" "d" 443).certificates = 0 ∧
    (parseOpenSSLOutput (fun _ => none)
        "-----BEGIN CERTIFICATE-----X-----END CERTIFICATE-----" "" "d" 443).isSelfSigned = false := by
  refine ⟨by decide, by decide, by decide⟩

/-- C6 amended: every ChainResult whose chain is NON-EMPTY and not
self-signed has exactly one leaf entry, on both paths; on the text
path, position k of a non-self-signed chain is leaf at zero, root at
the last index and intermediate between; a self-signed chain is a
single entry reclassified self-signed.  The empty chain, possible on
the text path when every block parse fails, has no leaf entry. -/
theorem C6_leaf_uniqueness :
    (∀ (x509 : String → Option String) (stdout stderr domain : String) (port : Nat),
      ((parseOpenSSLOutput x509 stdout stderr domain port).certificates ≠ [] →
        (parseOpenSSLOutput x509 stdout stderr domain port).isSelfSigned = false →
        pemLeafCount (parseOpenSSLOutput x509 stdout stderr domain port).certificates = 1) ∧
      ((parseOpenSSLOutput x509 stdout stderr domain port).isSelfSigned = true →
        ∃ c, (parseOpenSSLOutput x509 stdout stderr domain port).certificates = [c] ∧
          c.type = some "self-signed") ∧
      (∀ (k : Nat) (c : PEMCert),
        (parseOpenSSLOutput x509 stdout stderr domain port).isSelfSigned = false →
        ((parseOpenSSLOutput x509 stdout stderr domain port).certificates)[k]? = some c →
        c.type = some (if k = 0 then "leaf"
          else if k = (parseOpenSSLOutput x509 stdout stderr domain port).certificates.length - 1
          then "root" else "intermediate"))) ∧
    (∀ (domain : String) (port : Nat) (s : TLSSession) (r : NativeChainResult),
      getCertificateChain domain port s = .ok r →
      ((r.isSelfSigned = false → nativeLeafCount r.certificates = 1) ∧
       (r.isSelfSigned = true →
         ∃ c, r.certificates = [c] ∧ c.type = some "self-signed"))) := by
  constructor
  · intro x509 stdout stderr domain port
    have hcert : (parseOpenSSLOutput x509 stdout stderr domain port).certificates =
        pemReclass (osslTyped x509 stdout) := rfl
    have hss : (parseOpenSSLOutput x509 stdout stderr domain port).isSelfSigned =
        pemIsSelfSignedList (osslTyped x509 stdout) := rfl
    refine ⟨?_, ?_, ?_⟩
    · intro hne hssf
      rw [hss] at hssf
      rw [hcert] at hne ⊢
      simp only [pemReclass] at hne ⊢
      rw [if_neg (by simp [hssf])] at hne ⊢
      apply osslTyped_leafCount
      intro h
      apply hne
      have hlen := osslTyped_length x509 stdout
      rw [h] at hlen
      exact List.length_eq_zero.1 hlen
    · intro hsst
      rw [hss] at hsst
      rw [hcert]
      cases ht : osslTyped x509 stdout with
      | nil => rw [ht] at hsst; simp [pemIsSelfSignedList] at hsst
      | cons c0 rest =>
        cases rest with
        | cons c1 r2 => rw [ht] at hsst; simp [pemIsSelfSignedList] at hsst
        | nil =>
          rw [ht] at hsst
          have hcn : (c0.subject.commonName == c0.issuer.commonName) = true := by
            simpa [pemIsSelfSignedList] using hsst
          rw [pemReclass_single, if_pos hcn]
          exact ⟨_, rfl, rfl⟩
    · intro k c hssf hk
      rw [hss] at hssf
      rw [hcert] at hk ⊢
      simp only [pemReclass, hssf, Bool.false_eq_true, if_false] at hk ⊢
      rw [osslTyped_getElem] at hk
      cases hs0 : (osslSurvivors x509 stdout)[k]? with
      | none => rw [hs0] at hk; simp at hk
      | some s0 =>
        rw [hs0] at hk
        have hk2 : setChainType k (osslSurvivors x509 stdout).length s0 = c := by
          simpa using hk
        rw [osslTyped_length, ← hk2]
        by_cases h0 : k = 0
        · subst h0
          simp [setChainType_type_zero]
        · by_cases hl : k = (osslSurvivors x509 stdout).length - 1
          · rw [setChainType_type_last k _ s0 h0 hl]
            subst hl
            simp [h0]
          · rw [setChainType_type_mid k _ s0 h0 hl]
            simp [h0, hl]
  · intro domain port s r hok
    cases hp : s.peer with
    | none => simp [getCertificateChain, hp] at hok
    | some p =>
      simp only [getCertificateChain, hp] at hok
      cases hok
      simp only
      constructor
      · intro hssf
        simp only [nativeReclass]
        rw [if_neg (by simp [hssf])]
        exact chainWalk_leafCount s.env p
      · intro hsst
        cases hw : (chainWalk s.env p).1 with
        | nil => rw [hw] at hsst; simp [nativeIsSelfSigned] at hsst
        | cons c0 rest =>
          cases rest with
          | cons c1 r2 => rw [hw] at hsst; simp [nativeIsSelfSigned] at hsst
          | nil =>
            rw [hw] at hsst
            have hcn : (c0.subject.commonName == c0.issuer.commonName) = true := by
              simpa [nativeIsSelfSigned] using hsst
            rw [nativeReclass_single, if_pos hcn]
            exact ⟨_, rfl, rfl⟩

/-- The per-certificate toolkit oracle of the C6 scenario. -/
def c6X509 : String → Option String :=
  fun _ => some "Subject: CN = a\nIssuer: CN = b"

/-- A toolkit dump carrying two PEM blocks. -/
def c6Stdout : String :=
  "-----BEGIN CERTIFICATE-----A-----END CERTIFICATE-----\n-----BEGIN CERTIFICATE-----B-----END CERTIFICATE-----"

/-- A session presenting a single certificate with differing subject
and issuer common names. -/
def c6Session : TLSSession :=
  { peer := some 0,
    env := { cert := fun _ =>
               { subject := some { CN := some "a" },
                 issuer := some { CN := some "b" },
                 fingerprint256 := some "f" },
             issuer := fun _ => none },
    authorized := true, authorizationError := none, protocol := none,
    cipher := none }

/-- C6 witness: the exactly-one-leaf conclusion at a concrete two-block
toolkit dump and at a concrete single-certificate live session. -/
theorem C6_leaf_uniqueness_witness :
    pemLeafCount (parseOpenSSLOutput c6X509 c6Stdout "" "d" 443).certificates = 1 ∧
    nativeLeafCount ((getCertificateChain "d" 443 c6Session).toOption.getD
        emptyNativeChainResult).certificates = 1 := by
  constructor
  · exact (C6_leaf_uniqueness.1 c6X509 c6Stdout "" "d" 443).1 (by decide) (by decide)
  · exact (C6_leaf_uniqueness.2 "d" 443 c6Session
      ((getCertificateChain "d" 443 c6Session).toOption.getD emptyNativeChainResult)
      rfl).1 (by decide)
